import Mathlib

/-!
Verification of the `sartorius` scale driver (driver.py, util.py).

The Python source is shallowly embedded:
* strings are Lean `String`s (all protocol data is ASCII);
* Python slicing `s[a:b]`, `str.strip`, `str.replace(' ', '')` and the
  substring test `in` are modelled character-list-wise;
* the builtin `float` applied to the mass field is modelled by `parseFloat`,
  a rational-valued parser for optionally signed decimal literals (the only
  shapes the protocol produces); inputs Python's `float` would reject (no
  digits, stray letters) yield `none`, which the driver surfaces as a raised
  `ValueError`;
* code that can raise returns `Except PyErr`; `logger.error` / `logger.warning`
  calls are collected in an output list of `LogEntry`;
* the mutable `self.units` cache of `Scale` and the mutable connection state
  of the transport clients are threaded explicitly.
-/

/-- Severity of an emitted log line. -/
inductive LogLevel where
  | error
  | warning
  deriving DecidableEq, Repr

/-- One log line: severity plus message text. -/
structure LogEntry where
  level : LogLevel
  msg : String
  deriving DecidableEq, Repr

/-- Python exceptions the embedded code can raise. -/
inductive PyErr where
  | valueError (msg : String)
  | osError (msg : String)
  | attributeError (msg : String)
  deriving DecidableEq, Repr

/-- Python slice `s[a:b]` for `0 ≤ a ≤ b` (the only shapes the driver uses). -/
def pySlice (s : String) (a b : Nat) : String :=
  String.mk ((s.toList.drop a).take (b - a))

/-- Python `s.strip()`: drop whitespace from both ends. -/
def pyStrip (s : String) : String :=
  String.mk (((s.toList.dropWhile Char.isWhitespace).reverse.dropWhile
    Char.isWhitespace).reverse)

deriving instance DecidableEq for Except

/-- Python `s.replace(' ', '')`: delete every space character. -/
def removeSpaces (s : String) : String :=
  String.mk (s.toList.filter (fun c => c ≠ ' '))

/-- Whether `pat` occurs as a contiguous run inside `l` (Python `pat in s`). -/
def listIsSubstr (pat l : List Char) : Bool :=
  (List.range (l.length + 1)).any (fun i => ((l.drop i).take pat.length) == pat)

/-- Python substring test `pat in s`. -/
def strContains (s pat : String) : Bool :=
  listIsSubstr pat.toList s.toList

/-- Value of a digit run read in base 10. -/
def digitsToNat (l : List Char) : Nat :=
  l.foldl (fun n c => 10 * n + (c.toNat - 48)) 0

/-- Unsigned decimal literal: digits, optionally one point, at least one digit
overall.  Returns the exact rational value. -/
def parseFloatCore (l : List Char) : Option ℚ :=
  let intPart := l.takeWhile Char.isDigit
  let rest := l.dropWhile Char.isDigit
  match rest with
  | [] => if intPart.isEmpty then none else some (digitsToNat intPart)
  | '.' :: frac =>
      if frac.all Char.isDigit && !(intPart.isEmpty && frac.isEmpty) then
        some ((digitsToNat intPart : ℚ) + (digitsToNat frac : ℚ) / (10 ^ frac.length : ℚ))
      else none
  | _ => none

/-- Model of Python `float(s)` on optionally signed decimal literals, the
grammar the scale's mass field uses.  `none` models `float` raising
`ValueError`. -/
def parseFloat (s : String) : Option ℚ :=
  match s.toList with
  | '+' :: rest => parseFloatCore rest
  | '-' :: rest => (parseFloatCore rest).map Neg.neg
  | l => parseFloatCore l

/-- Result dict of `Scale._parse` / `Scale.get`: either the device-off dict
or a full reading dict. -/
inductive Reading where
  | off
  | reading (mass : ℚ) (units : String) (stable : Bool) (measurement : String)
  deriving DecidableEq, Repr

/-- Outcome of a `Scale` method: raised exception, or value together with the
new `self.units` cache and the log lines emitted. -/
abbrev ScaleResult := Except PyErr (Reading × String × List LogEntry)

namespace Scale

/-- Embedding of `Scale._parse` (driver.py).  `selfUnits` is the `self.units`
cache on entry; the returned `String` is the cache on exit. -/
def parse (selfUnits : String) (response : Option String) : ScaleResult :=
  match response with
  | none => .ok (.off, selfUnits, [])
  | some r =>
    if r.length ≠ 22 then
      .ok (.off, selfUnits, [⟨.error, "Received malformed data: " ++ r⟩])
    else
      let id := pyStrip (pySlice r 0 6)
      if id = "Stat" then
        let error := pyStrip (pySlice r 9 14)
        .ok (.off, selfUnits, [⟨.warning, "Could not read: " ++ error⟩])
      else if id = "N" ∨ id = "G" then
        let measurement := if id = "N" then "net" else "gross"
        match parseFloat (removeSpaces (pySlice r 6 16)) with
        | none => .error (.valueError "could not convert string to float")
        | some mass =>
          let units := pyStrip (pySlice r 17 20)
          if units ≠ "" then
            .ok (.reading mass units true measurement, units, [])
          else
            .ok (.reading mass selfUnits false measurement, selfUnits, [])
      else
        .error (.valueError "This driver only supports net/gross weight.")

/-- Embedding of `Scale.get` (driver.py): `response` is what
`_write_and_read` produced (`none` models Python `None`).  A falsy response
(absent or empty) raises `OSError`; otherwise `_parse` runs. -/
def get (selfUnits : String) (response : Option String) : ScaleResult :=
  match response with
  | none => .error (.osError "Unable to get reading from scale.")
  | some r =>
    if r = "" then .error (.osError "Unable to get reading from scale.")
    else parse selfUnits (some r)

/-- Result dict of `Scale.get_info`: either the empty dict (malformed data)
or the three trimmed fields. -/
inductive InfoResult where
  | empty
  | info (model serial software : String)
  deriving DecidableEq, Repr

/-- Embedding of `Scale.get_info` (driver.py): the three arguments are the raw
responses to the three info queries.  Any falsy response raises `OSError`;
a field containing a weight-frame marker is logged (message payload elided)
and the whole call returns the empty dict. -/
def getInfo (model serial software : Option String) :
    Except PyErr (InfoResult × List LogEntry) :=
  match model, serial, software with
  | some m, some s, some w =>
    if m = "" ∨ s = "" ∨ w = "" then
      .error (.osError "Unable to get information from scale.")
    else
      let m' := pyStrip m
      let s' := pyStrip s
      let w' := pyStrip w
      let bad := fun item => strContains item " + " || strContains item " kg"
      if bad m' || bad s' || bad w' then
        .ok (.empty, [⟨.error, "Received malformed data"⟩])
      else
        .ok (.info m' s' w', [])
  | _, _, _ => .error (.osError "Unable to get information from scale.")

end Scale

/-- Outcome of the underlying write+read pair: the decoded text of the bytes
read (serial `readline` / TCP `readuntil` both return the data up to and
including the `\r\n` delimiter), or a raised timeout / I/O error. -/
inductive CommOutcome where
  | success (line : String)
  | failure
  deriving DecidableEq, Repr

/-- The shared constant `Client.max_timeouts` (util.py). -/
def maxTimeouts : Nat := 10

namespace SerialClient

/-- Mutable state of a `SerialClient` (util.py).  `timeouts` is `none` while
the attribute has never been assigned: neither `Client.__init__` nor
`SerialClient.__init__` sets it, so it first exists after a successful read
(set to 0) and reading it before that raises `AttributeError`.  `serOpen`
is the pyserial port's open flag, cleared by `SerialClient.close`. -/
structure State where
  timeouts : Option Nat
  serOpen : Bool
  deriving DecidableEq, Repr

/-- Embedding of `SerialClient._handle_communication` (util.py).  On success
the line is returned undiminished (the source comments: do not strip, the
caller needs the full 22-char line) and the counter attribute is set to 0.
On failure the increment `self.timeouts += 1` reads the attribute first,
raising `AttributeError` when it was never assigned; otherwise the counter
is bumped and at `max_timeouts` a line is printed and the port closed. -/
def handleCommunication (s : State) (o : CommOutcome) :
    Except PyErr (Option String × State × List LogEntry) :=
  match o with
  | .success line => .ok (some line, { s with timeouts := some 0 }, [])
  | .failure =>
    match s.timeouts with
    | none =>
      .error (.attributeError "SerialClient object has no attribute timeouts")
    | some t =>
      let t' := t + 1
      if t' = maxTimeouts then
        .ok (none, { timeouts := some t', serOpen := false },
          [⟨.error, "Reading timed out " ++ toString t' ++ " times."⟩])
      else
        .ok (none, { s with timeouts := some t' }, [])

end SerialClient

namespace TcpClient

/-- Mutable state of a `TcpClient` (util.py): `__init__` sets
`timeouts = 0`, `reconnecting = False`, and (via `Client.__init__`)
`open = False`. -/
structure State where
  timeouts : Nat
  isOpen : Bool
  reconnecting : Bool
  deriving DecidableEq, Repr

/-- The state right after `TcpClient.__init__`. -/
def initState : State := { timeouts := 0, isOpen := false, reconnecting := false }

/-- Embedding of `TcpClient._handle_communication` (util.py).  On success the
decoded line is returned undiminished and the counter resets; on a timeout,
`TypeError` or `OSError` the counter is bumped and, exactly when it reaches
`max_timeouts`, a log line is emitted and `close()` clears `open`. -/
def handleCommunication (s : State) (o : CommOutcome) :
    Option String × State × List LogEntry :=
  match o with
  | .success line => (some line, { s with timeouts := 0 }, [])
  | .failure =>
    let t' := s.timeouts + 1
    if t' = maxTimeouts then
      (none, { s with timeouts := t', isOpen := false },
        [⟨.error, "Reading timed out " ++ toString t' ++ " times."⟩])
    else
      (none, { s with timeouts := t' }, [])

/-- Whether `asyncio.open_connection` succeeds within the 0.5 s bound. -/
inductive ConnectOutcome where
  | success
  | failure
  deriving DecidableEq, Repr

/-- Embedding of `TcpClient._handle_connection` (util.py).  The returned
`Bool` records whether `_connect` was invoked (it is exactly when `open`
was false).  A failed attempt logs only on the transition into the
`reconnecting` state. -/
def handleConnection (s : State) (o : ConnectOutcome) :
    State × Bool × List LogEntry :=
  if s.isOpen then
    ({ s with reconnecting := false }, false, [])
  else
    match o with
    | .success => ({ s with isOpen := true, reconnecting := false }, true, [])
    | .failure =>
        ({ s with reconnecting := true }, true,
          if s.reconnecting then [] else [⟨.error, "Connecting timed out."⟩])

/-- State reached from `s` by `n` consecutive failed communications. -/
def applyFailures : Nat → State → State
  | 0, s => s
  | n + 1, s => applyFailures n (handleCommunication s .failure).2.1

end TcpClient

/-! The lock discipline of `Client._write_and_read` (util.py): every exchange
runs `_handle_connection`, write and read while holding `self.lock`, an
`asyncio.Lock` acquired with `async with`.  We model two concurrent callers
of `_write_and_read` on one client as an interleaving transition system:
each task steps through acquire / connect / write / read, and the lock is
taken at acquire and released after the read. -/

namespace LockModel

/-- Control point of one caller inside `_write_and_read`. -/
inductive Pc where
  | idle
  | waiting
  | connecting
  | writing
  | reading
  | done
  deriving DecidableEq, Repr

/-- The program counters in the exchange body, i.e. executed while the
`async with self.lock` block is held. -/
def Pc.inBody : Pc → Bool
  | .connecting => true
  | .writing => true
  | .reading => true
  | _ => false

/-- Shared state: who holds `self.lock` (a task is `Bool`), and where each
task is. -/
structure Sys where
  lockHolder : Option Bool
  pc : Bool → Pc

/-- Update one task's program counter. -/
def setPc (s : Sys) (t : Bool) (p : Pc) : Sys :=
  { s with pc := fun u => if u = t then p else s.pc u }

/-- One interleaving step.  `acquire` fires only when the lock is free —
this is the `asyncio.Lock` semantics of `async with self.lock`; the body
steps mirror `_handle_connection`, `write`, `read`; the final step leaves
the `async with` block and releases the lock. -/
inductive Step : Sys → Sys → Prop where
  | call (s : Sys) (t : Bool) (h : s.pc t = .idle) :
      Step s (setPc s t .waiting)
  | acquire (s : Sys) (t : Bool) (h : s.pc t = .waiting) (hl : s.lockHolder = none) :
      Step s { setPc s t .connecting with lockHolder := some t }
  | connectStep (s : Sys) (t : Bool) (h : s.pc t = .connecting) :
      Step s (setPc s t .writing)
  | writeStep (s : Sys) (t : Bool) (h : s.pc t = .writing) :
      Step s (setPc s t .reading)
  | readRelease (s : Sys) (t : Bool) (h : s.pc t = .reading) :
      Step s { setPc s t .done with lockHolder := none }

/-- Initial state: lock free, both tasks outside `_write_and_read`. -/
def init : Sys := { lockHolder := none, pc := fun _ => .idle }

/-- States reachable from `init` by interleaving steps. -/
inductive Reachable : Sys → Prop where
  | refl : Reachable init
  | tail {s s' : Sys} (hr : Reachable s) (hs : Step s s') : Reachable s'

/-- Any task inside the exchange body holds the lock. -/
def HolderInv (s : Sys) : Prop :=
  ∀ t : Bool, (s.pc t).inBody = true → s.lockHolder = some t

theorem holderInv_init : HolderInv init := by
  intro t ht
  simp [init, Pc.inBody] at ht

theorem holderInv_step {s s' : Sys} (hs : Step s s') (ih : HolderInv s) :
    HolderInv s' := by
  cases hs with
  | call t hpc =>
    intro u hu
    by_cases hut : u = t
    · subst hut
      simp [setPc, Pc.inBody] at hu
    · have hbody : (s.pc u).inBody = true := by
        simpa [setPc, hut] using hu
      simpa [setPc] using ih u hbody
  | acquire t hpc hl =>
    intro u hu
    by_cases hut : u = t
    · subst hut
      rfl
    · exfalso
      have hbody : (s.pc u).inBody = true := by
        simpa [setPc, hut] using hu
      have hsome := ih u hbody
      rw [hl] at hsome
      exact Option.noConfusion hsome
  | connectStep t hpc =>
    intro u hu
    by_cases hut : u = t
    · subst hut
      have hbody : (s.pc u).inBody = true := by
        rw [hpc]
        rfl
      simpa [setPc] using ih u hbody
    · have hbody : (s.pc u).inBody = true := by
        simpa [setPc, hut] using hu
      simpa [setPc] using ih u hbody
  | writeStep t hpc =>
    intro u hu
    by_cases hut : u = t
    · subst hut
      have hbody : (s.pc u).inBody = true := by
        rw [hpc]
        rfl
      simpa [setPc] using ih u hbody
    · have hbody : (s.pc u).inBody = true := by
        simpa [setPc, hut] using hu
      simpa [setPc] using ih u hbody
  | readRelease t hpc =>
    intro u hu
    by_cases hut : u = t
    · subst hut
      simp [setPc, Pc.inBody] at hu
    · exfalso
      have hbody : (s.pc u).inBody = true := by
        simpa [setPc, hut] using hu
      have h1 := ih u hbody
      have h2 := ih t (by rw [hpc]; rfl)
      rw [h1] at h2
      exact hut (Option.some.inj h2)

theorem holderInv_reachable {s : Sys} (h : Reachable s) : HolderInv s := by
  induction h with
  | refl => exact holderInv_init
  | tail hr hs ih => exact holderInv_step hs ih

/-- A reachable demonstration state: task `false` has called, acquired the
lock, connected, and is about to write; task `true` is still idle. -/
def demoSys : Sys :=
  setPc { setPc (setPc init false .waiting) false .connecting
            with lockHolder := some false } false .writing

end LockModel

/-- C2: in every reachable interleaving of two concurrent callers of
`_write_and_read` on one client, while one task is inside the exchange body
(connect attempt, write or read), the other task is not: the lock taken by
`async with self.lock` serializes the exchanges, so two commands' writes and
reads are never interleaved. -/
theorem C2_exchange_mutual_exclusion {s : LockModel.Sys}
    (h : LockModel.Reachable s) (t u : Bool) (htu : t ≠ u)
    (ht : (s.pc t).inBody = true) : (s.pc u).inBody = false := by
  by_contra hu
  have hu' : (s.pc u).inBody = true := by
    simpa using hu
  have h1 := LockModel.holderInv_reachable h t ht
  have h2 := LockModel.holderInv_reachable h u hu'
  rw [h1] at h2
  exact htu (Option.some.inj h2)

/-- Witness for C2 at a concrete reachable state: task `false` is writing,
so task `true` is outside the exchange body. -/
theorem C2_witness :
    (LockModel.demoSys.pc true).inBody = false := by
  have hreach : LockModel.Reachable LockModel.demoSys :=
    .tail (.tail (.tail .refl (.call _ false rfl)) (.acquire _ false rfl rfl))
      (.connectStep _ false rfl)
  exact C2_exchange_mutual_exclusion hreach false true (by decide) rfl

/-- C1 (amended): a 22-character line whose stripped id code is `N` or `G`,
whose units field strips non-empty, and whose mass text parses as a float,
yields a stable reading with that mass, those units, and measurement
`net`/`gross`; when the mass text is not a valid float literal the parser
instead raises `ValueError`. -/
theorem C1_stable_reading (cache r : String) (m : ℚ)
    (h22 : r.length = 22)
    (hid : pyStrip (pySlice r 0 6) = "N" ∨ pyStrip (pySlice r 0 6) = "G")
    (hm : parseFloat (removeSpaces (pySlice r 6 16)) = some m)
    (hu : pyStrip (pySlice r 17 20) ≠ "") :
    Scale.parse cache (some r) =
      .ok (.reading m (pyStrip (pySlice r 17 20)) true
            (if pyStrip (pySlice r 0 6) = "N" then "net" else "gross"),
          pyStrip (pySlice r 17 20), []) := by
  rcases hid with hN | hG
  · simp [Scale.parse, h22, hN, hm, hu]
  · simp [Scale.parse, h22, hG, hm, hu]

/-- C1 fails as stated: this 22-character line has id `N` and units `g`, yet
the parser raises (Python `float` rejects the mass text) instead of
returning a stable reading. -/
theorem C1_counterexample :
    ("N     xxxxxxxxxx g  \r\n").length = 22 ∧
    pyStrip (pySlice "N     xxxxxxxxxx g  \r\n" 0 6) = "N" ∧
    pyStrip (pySlice "N     xxxxxxxxxx g  \r\n" 17 20) ≠ "" ∧
    Scale.parse "" (some "N     xxxxxxxxxx g  \r\n") =
      .error (.valueError "could not convert string to float") := by
  decide

/-- Witness for C1: the spec's end-to-end example frame parses to mass
0.1234, units `g`, stable, net. -/
theorem C1_witness :
    Scale.parse "" (some "N     +   0.1234 g  \r\n") =
      .ok (.reading ((1234 : ℚ) / 10000) "g" true "net", "g", []) := by
  have hm : parseFloat (removeSpaces (pySlice "N     +   0.1234 g  \r\n" 6 16)) =
      some ((1234 : ℚ) / 10000) := by
    have h : parseFloat (removeSpaces (pySlice "N     +   0.1234 g  \r\n" 6 16)) =
        some ((digitsToNat ['0'] : ℚ) + (digitsToNat ['1', '2', '3', '4'] : ℚ) /
          (10 ^ (['1', '2', '3', '4'].length) : ℚ)) := rfl
    rw [h, show digitsToNat ['0'] = 0 from rfl,
      show digitsToNat ['1', '2', '3', '4'] = 1234 from rfl]
    norm_num
  have hmain := C1_stable_reading "" "N     +   0.1234 g  \r\n" ((1234 : ℚ) / 10000)
    (by decide) (Or.inl (by decide)) hm (by decide)
  rw [hmain, show pyStrip (pySlice "N     +   0.1234 g  \r\n" 17 20) = "g" from rfl,
    show pyStrip (pySlice "N     +   0.1234 g  \r\n" 0 6) = "N" from rfl]
  simp

/-- C3 fails as stated: an absent response and an empty response both make
`get` raise `OSError` rather than report the device off. -/
theorem C3_counterexample :
    Scale.get "" none = .error (.osError "Unable to get reading from scale.") ∧
    Scale.get "" (some "") =
      .error (.osError "Unable to get reading from scale.") := by
  decide

/-- C3 (amended): a non-empty response whose length differs from 22 makes
`get` report the device off (with an error log) without raising, while an
absent or empty response makes `get` raise `OSError`. -/
theorem C3_length_guard :
    (∀ units r, r ≠ "" → r.length ≠ 22 →
      Scale.get units (some r) =
        .ok (.off, units, [⟨.error, "Received malformed data: " ++ r⟩])) ∧
    (∀ units : String,
      Scale.get units none =
        .error (.osError "Unable to get reading from scale.") ∧
      Scale.get units (some "") =
        .error (.osError "Unable to get reading from scale.")) := by
  constructor
  · intro units r hne h22
    simp [Scale.get, hne, Scale.parse, h22]
  · intro units
    constructor
    · rfl
    · rfl

/-- Witness for C3 (amended) at a concrete 5-character response. -/
theorem C3_witness :
    Scale.get "x" (some "hello") =
      .ok (.off, "x", [⟨.error, "Received malformed data: hello"⟩]) :=
  C3_length_guard.1 "x" "hello" (by decide) (by decide)

/-- C4: a 22-character frame whose stripped id code is none of `Stat`, `N`,
`G` makes the parser raise `ValueError` (it neither returns a reading nor a
device-off result). -/
theorem C4_unknown_id (cache r : String) (h22 : r.length = 22)
    (hstat : pyStrip (pySlice r 0 6) ≠ "Stat")
    (hN : pyStrip (pySlice r 0 6) ≠ "N")
    (hG : pyStrip (pySlice r 0 6) ≠ "G") :
    Scale.parse cache (some r) =
      .error (.valueError "This driver only supports net/gross weight.") := by
  simp [Scale.parse, h22, hstat, hN, hG]

/-- Witness for C4: the id code `X` (the repository's own test vector) makes
the parser raise. -/
theorem C4_witness :
    Scale.parse "" (some "X     +   0.1234 g  \r\n") =
      .error (.valueError "This driver only supports net/gross weight.") :=
  C4_unknown_id "" "X     +   0.1234 g  \r\n" (by decide) (by decide) (by decide)
    (by decide)

/-- C5: a frame whose stripped id code is `Stat` never raises: the parser
returns the device-off dict with the cache untouched, and when the frame has
the full 22 characters the fault text stripped from `[9:14]` is logged at
warning level. -/
theorem C5_stat_frame (cache r : String)
    (hid : pyStrip (pySlice r 0 6) = "Stat") :
    (∃ logs, Scale.parse cache (some r) = .ok (.off, cache, logs)) ∧
    (r.length = 22 → Scale.parse cache (some r) =
      .ok (.off, cache,
        [⟨.warning, "Could not read: " ++ pyStrip (pySlice r 9 14)⟩])) := by
  by_cases h22 : r.length = 22
  · constructor
    · refine ⟨[⟨.warning, "Could not read: " ++ pyStrip (pySlice r 9 14)⟩], ?_⟩
      simp [Scale.parse, h22, hid]
    · intro _
      simp [Scale.parse, h22, hid]
  · constructor
    · refine ⟨[⟨.error, "Received malformed data: " ++ r⟩], ?_⟩
      simp [Scale.parse, h22]
    · intro h
      exact absurd h h22

/-- Witness for C5: the docstring's "face plate off" frame yields the off
dict and the warning log. -/
theorem C5_witness :
    Scale.parse "kg" (some "Stat       OFF      \r\n") =
      .ok (.off, "kg", [⟨.warning, "Could not read: OFF"⟩]) := by
  have hmain := (C5_stat_frame "kg" "Stat       OFF      \r\n" (by decide)).2
    (by decide)
  rw [hmain]
  decide

/-- C6: (a) the units cache changes across a parse only when the parse
yields a stable reading whose (non-empty) units are the new cache value, so
a cached value persists until the next stable reading; (b) a valid `N`/`G`
frame with an empty units field yields `stable = false` with the cached
units substituted (the initial cache being the empty string), leaving the
cache unchanged. -/
theorem C6_units_cache (cache : String) (r : Option String) (res : Reading)
    (cache' : String) (logs : List LogEntry)
    (h : Scale.parse cache r = .ok (res, cache', logs)) :
    (cache' ≠ cache →
      ∃ m meas, res = .reading m cache' true meas ∧ cache' ≠ "") ∧
    (∀ s m, r = some s → s.length = 22 →
      (pyStrip (pySlice s 0 6) = "N" ∨ pyStrip (pySlice s 0 6) = "G") →
      parseFloat (removeSpaces (pySlice s 6 16)) = some m →
      pyStrip (pySlice s 17 20) = "" →
      res = .reading m cache false
          (if pyStrip (pySlice s 0 6) = "N" then "net" else "gross") ∧
      cache' = cache) := by
  rcases r with _ | rr
  · have hv : Scale.parse cache none = .ok (.off, cache, []) := rfl
    rw [hv] at h
    injection h with h1
    injection h1 with ha hb
    injection hb with hb1 hb2
    subst ha hb1 hb2
    refine ⟨fun hne => absurd rfl hne, ?_⟩
    intro s m hs
    exact absurd hs (by simp)
  · by_cases h22 : rr.length = 22
    · by_cases hstat : pyStrip (pySlice rr 0 6) = "Stat"
      · have hv : Scale.parse cache (some rr) =
            .ok (.off, cache,
              [⟨.warning, "Could not read: " ++ pyStrip (pySlice rr 9 14)⟩]) := by
          simp [Scale.parse, h22, hstat]
        rw [hv] at h
        injection h with h1
        injection h1 with ha hb
        injection hb with hb1 hb2
        subst ha hb1 hb2
        refine ⟨fun hne => absurd rfl hne, ?_⟩
        intro s m hs h22' hid hm hu
        obtain rfl : s = rr := (Option.some.inj hs).symm
        rcases hid with hN | hG
        · rw [hstat] at hN
          exact absurd hN (by decide)
        · rw [hstat] at hG
          exact absurd hG (by decide)
      · by_cases hN : pyStrip (pySlice rr 0 6) = "N"
        · cases hfl : parseFloat (removeSpaces (pySlice rr 6 16)) with
          | none =>
            have hv : Scale.parse cache (some rr) =
                .error (.valueError "could not convert string to float") := by
              simp [Scale.parse, h22, hN, hfl]
            rw [hv] at h
            exact absurd h (by simp)
          | some m0 =>
            by_cases hu : pyStrip (pySlice rr 17 20) = ""
            · have hv : Scale.parse cache (some rr) =
                  .ok (.reading m0 cache false "net", cache, []) := by
                simp [Scale.parse, h22, hN, hfl, hu]
              rw [hv] at h
              injection h with h1
              injection h1 with ha hb
              injection hb with hb1 hb2
              subst ha hb1 hb2
              refine ⟨fun hne => absurd rfl hne, ?_⟩
              intro s m hs h22' hid hm hu'
              obtain rfl : s = rr := (Option.some.inj hs).symm
              rw [hfl] at hm
              obtain rfl : m0 = m := Option.some.inj hm
              rw [if_pos hN]
              exact ⟨rfl, rfl⟩
            · have hv : Scale.parse cache (some rr) =
                  .ok (.reading m0 (pyStrip (pySlice rr 17 20)) true "net",
                    pyStrip (pySlice rr 17 20), []) := by
                simp [Scale.parse, h22, hN, hfl, hu]
              rw [hv] at h
              injection h with h1
              injection h1 with ha hb
              injection hb with hb1 hb2
              subst ha hb1 hb2
              constructor
              · intro _
                exact ⟨m0, "net", rfl, hu⟩
              · intro s m hs h22' hid hm hu'
                obtain rfl : s = rr := (Option.some.inj hs).symm
                exact absurd hu' hu
        · by_cases hG : pyStrip (pySlice rr 0 6) = "G"
          · cases hfl : parseFloat (removeSpaces (pySlice rr 6 16)) with
            | none =>
              have hv : Scale.parse cache (some rr) =
                  .error (.valueError "could not convert string to float") := by
                simp [Scale.parse, h22, hG, hfl]
              rw [hv] at h
              exact absurd h (by simp)
            | some m0 =>
              by_cases hu : pyStrip (pySlice rr 17 20) = ""
              · have hv : Scale.parse cache (some rr) =
                    .ok (.reading m0 cache false "gross", cache, []) := by
                  simp [Scale.parse, h22, hG, hfl, hu]
                rw [hv] at h
                injection h with h1
                injection h1 with ha hb
                injection hb with hb1 hb2
                subst ha hb1 hb2
                refine ⟨fun hne => absurd rfl hne, ?_⟩
                intro s m hs h22' hid hm hu'
                obtain rfl : s = rr := (Option.some.inj hs).symm
                rw [hfl] at hm
                obtain rfl : m0 = m := Option.some.inj hm
                rw [if_neg hN]
                exact ⟨rfl, rfl⟩
              · have hv : Scale.parse cache (some rr) =
                    .ok (.reading m0 (pyStrip (pySlice rr 17 20)) true "gross",
                      pyStrip (pySlice rr 17 20), []) := by
                  simp [Scale.parse, h22, hG, hfl, hu]
                rw [hv] at h
                injection h with h1
                injection h1 with ha hb
                injection hb with hb1 hb2
                subst ha hb1 hb2
                constructor
                · intro _
                  exact ⟨m0, "gross", rfl, hu⟩
                · intro s m hs h22' hid hm hu'
                  obtain rfl : s = rr := (Option.some.inj hs).symm
                  exact absurd hu' hu
          · have hv : Scale.parse cache (some rr) =
                .error (.valueError "This driver only supports net/gross weight.") := by
              simp [Scale.parse, h22, hstat, hN, hG]
            rw [hv] at h
            exact absurd h (by simp)
    · have hv : Scale.parse cache (some rr) =
          .ok (.off, cache, [⟨.error, "Received malformed data: " ++ rr⟩]) := by
        simp [Scale.parse, h22]
      rw [hv] at h
      injection h with h1
      injection h1 with ha hb
      injection hb with hb1 hb2
      subst ha hb1 hb2
      refine ⟨fun hne => absurd rfl hne, ?_⟩
      intro s m hs h22' hid hm hu
      obtain rfl : s = rr := (Option.some.inj hs).symm
      exact absurd h22' h22

/-- Witness for C6: the repository's empty-units test frame, parsed with an
empty cache, yields an unstable reading with empty substituted units and
leaves the cache unchanged. -/
theorem C6_witness :
    Scale.parse "" (some "N     +   5.4321    \r\n") =
      .ok (.reading ((54321 : ℚ) / 10000) "" false "net", "", []) ∧
    ("" : String) = "" := by
  have hv : Scale.parse "" (some "N     +   5.4321    \r\n") =
      .ok (.reading ((54321 : ℚ) / 10000) "" false "net", "", []) := by
    have h : Scale.parse "" (some "N     +   5.4321    \r\n") =
        .ok (.reading ((digitsToNat ['5'] : ℚ) +
            (digitsToNat ['4', '3', '2', '1'] : ℚ) /
            (10 ^ (['4', '3', '2', '1'].length) : ℚ)) "" false "net", "", []) := rfl
    rw [h, show digitsToNat ['5'] = 5 from rfl,
      show digitsToNat ['4', '3', '2', '1'] = 4321 from rfl]
    norm_num
  have hmain := (C6_units_cache "" (some "N     +   5.4321    \r\n") _ _ _ hv).2
    "N     +   5.4321    \r\n" ((54321 : ℚ) / 10000) rfl (by decide)
    (Or.inl (by decide)) (by rw [show parseFloat (removeSpaces
      (pySlice "N     +   5.4321    \r\n" 6 16)) =
        some ((digitsToNat ['5'] : ℚ) + (digitsToNat ['4', '3', '2', '1'] : ℚ) /
          (10 ^ (['4', '3', '2', '1'].length) : ℚ)) from rfl,
      show digitsToNat ['5'] = 5 from rfl,
      show digitsToNat ['4', '3', '2', '1'] = 4321 from rfl]; norm_num) (by decide)
  exact ⟨hv, hmain.2⟩

/-- C7 is right about the intent but the serial code has a slip: on a
`SerialClient` whose very first exchange fails, the failure handler's
`self.timeouts += 1` raises `AttributeError` (the attribute is never
initialized), instead of silently incrementing and returning `None`; the
TCP client, whose `__init__` does set the counter, behaves as claimed (shown
here at a concrete below-threshold state). -/
theorem C7_serial_first_failure :
    SerialClient.handleCommunication ⟨none, true⟩ .failure =
      .error (.attributeError "SerialClient object has no attribute timeouts") ∧
    TcpClient.handleCommunication ⟨0, true, false⟩ .failure =
      (none, ⟨1, true, false⟩, []) ∧
    SerialClient.handleCommunication ⟨some 3, true⟩ .failure =
      .ok (none, ⟨some 4, true⟩, []) := by
  decide

/-- C8: a successful round trip resets the TCP consecutive-timeout counter
to 0; ten consecutive failed exchanges starting from a reset counter leave
the connection force-closed; and `_handle_connection` on a closed connection
attempts a fresh connect. -/
theorem C8_reset_and_reconnect :
    (∀ (s : TcpClient.State) (line : String),
      ((TcpClient.handleCommunication s (.success line)).2.1).timeouts = 0) ∧
    (∀ s : TcpClient.State, s.timeouts = 0 →
      (TcpClient.applyFailures 10 s).isOpen = false) ∧
    (∀ (s : TcpClient.State) (o : TcpClient.ConnectOutcome), s.isOpen = false →
      (TcpClient.handleConnection s o).2.1 = true) := by
  refine ⟨fun s line => rfl, fun s h0 => ?_, fun s o hcl => ?_⟩
  · obtain ⟨t, op, rc⟩ := s
    simp only [TcpClient.State.timeouts] at h0
    subst h0
    simp [TcpClient.applyFailures, TcpClient.handleCommunication, maxTimeouts]
  · obtain ⟨t, op, rc⟩ := s
    simp only [TcpClient.State.isOpen] at hcl
    subst hcl
    cases o <;> simp [TcpClient.handleConnection]

/-- Witness for C8 at concrete states: a success at three accumulated
timeouts resets to 0, ten straight failures from the fresh state close the
connection, and a closed client's next connection handling attempts a
connect. -/
theorem C8_witness :
    ((TcpClient.handleCommunication ⟨3, true, false⟩ (.success "OK\r\n")).2.1).timeouts = 0 ∧
    (TcpClient.applyFailures 10 ⟨0, true, false⟩).isOpen = false ∧
    (TcpClient.handleConnection ⟨10, false, false⟩ .success).2.1 = true :=
  ⟨C8_reset_and_reconnect.1 ⟨3, true, false⟩ "OK\r\n",
   C8_reset_and_reconnect.2.1 ⟨0, true, false⟩ rfl,
   C8_reset_and_reconnect.2.2 ⟨10, false, false⟩ .success rfl⟩

/-- Spec-side definition (for comparison only): the line with the trailing
end-of-line delimiter stripped, as the spec's RawResponse description
demands. -/
def stripEol (line : String) : String :=
  if pySlice line (line.length - 2) line.length = "\r\n" then
    pySlice line 0 (line.length - 2)
  else
    line

/-- C9 fails as stated: a successful TCP exchange hands the decoded line to
the protocol layer with the delimiter still attached, which differs from the
delimiter-stripped text the claim demands (the 22-character weight frame
counts its trailing CRLF). -/
theorem C9_counterexample :
    (TcpClient.handleCommunication TcpClient.initState
      (.success "N     +   0.1234 g  \r\n")).1 = some "N     +   0.1234 g  \r\n" ∧
    some "N     +   0.1234 g  \r\n" ≠
      some (stripEol "N     +   0.1234 g  \r\n") := by
  decide

/-- C9 (amended): for every successful exchange, on both transports, the
RawResponse handed to the protocol layer is the line decoded to text with
the end-of-line delimiter retained — neither client strips it (the parser
relies on the full 22-character line). -/
theorem C9_raw_line_kept (s : TcpClient.State) (ss : SerialClient.State)
    (line : String) :
    (TcpClient.handleCommunication s (.success line)).1 = some line ∧
    SerialClient.handleCommunication ss (.success line) =
      .ok (some line, { ss with timeouts := some 0 }, []) :=
  ⟨rfl, rfl⟩

/-- C10 fails as stated: an info field containing the weight-frame marker
makes `get_info` log an error and return the empty dict — an ordinary
return, not a raised exception. -/
theorem C10_counterexample :
    Scale.getInfo (some "SIWADCP + 1") (some "37454321") (some "00-37-09") =
      .ok (.empty, [⟨.error, "Received malformed data"⟩]) := by
  decide

/-- C10 (amended): whenever the three info responses are present and
non-empty but some stripped field contains a weight-frame marker substring
(an embedded sign marker or unit suffix), `get_info` logs the malformed data
at error level and returns the empty dict instead of the three fields; it
does not raise. -/
theorem C10_malformed_info (m s w : String) (hm : m ≠ "") (hs : s ≠ "")
    (hw : w ≠ "")
    (hbad : (strContains (pyStrip m) " + " || strContains (pyStrip m) " kg" ||
      (strContains (pyStrip s) " + " || strContains (pyStrip s) " kg") ||
      (strContains (pyStrip w) " + " || strContains (pyStrip w) " kg")) = true) :
    Scale.getInfo (some m) (some s) (some w) =
      .ok (.empty, [⟨.error, "Received malformed data"⟩]) := by
  simp only [Scale.getInfo]
  rw [if_neg (by simp [hm, hs, hw])]
  rw [if_pos (by simpa using hbad)]

/-- Witness for C10 (amended): a unit suffix embedded in the model field. -/
theorem C10_witness :
    Scale.getInfo (some "12.5 kg") (some "x") (some "y") =
      .ok (.empty, [⟨.error, "Received malformed data"⟩]) :=
  C10_malformed_info "12.5 kg" "x" "y" (by decide) (by decide) (by decide)
    (by decide)
